import Mathlib

/-!
Shallow embedding of the chat-app real-time hub
(`go-backend/pkg/utils/socket.go`) together with the message-send
workflow (`internal/chat` handler `SendMessage`) and the websocket
acceptor.  State is explicit; side effects (websocket writes, channel
closes, log lines, unregister triggers) are recorded as an explicit
trace of `Effect`s, and write failures are modelled by a predicate
`fails : ConnID → Bool` telling which underlying connections fail
their `WriteMessage` calls.
-/

namespace ChatApp

/-- A user identifier: the hex rendering of a MongoDB ObjectID
(`primitive.ObjectID.Hex()`).  Identities are opaque keys here. -/
abbrev UserID := String

/-- An identifier standing for one underlying `*websocket.Conn`. -/
abbrev ConnID := Nat

/-- `Client` from socket.go: one WebSocket connection together with
the user it belongs to (`Conn`, `UserID`). -/
structure Client where
  conn : ConnID
  userID : UserID
deriving DecidableEq, Repr

/-- `models.Message` from `internal/models/message.go`: the Go struct
has fields `ID`, `SenderID`, `ReceiverID`, `Text`, `Image`,
`CreatedAt`, `UpdatedAt` (bson tags only; no json tags).  ObjectIDs
are kept as their hex strings, times as abstract naturals. -/
structure Message where
  id : String
  senderID : UserID
  receiverID : UserID
  text : String
  image : String
  createdAt : Nat
  updatedAt : Nat
deriving DecidableEq, Repr

/-- A JSON value, the target of `json.Marshal`. -/
inductive Json where
  | str (s : String)
  | num (n : Nat)
  | arr (elems : List Json)
  | obj (fields : List (String × Json))

/-- The payload slot of `WebSocketMessage` (`interface\x7b\x7d` in Go): either
the online-user-ID list or a `models.Message`. -/
inductive Payload where
  | userList (ids : List UserID)
  | message (m : Message)
deriving DecidableEq, Repr

/-- `WebSocketMessage` from socket.go: `Event string` (json tag
"event") and `Payload` (json tag "payload"). -/
structure WebSocketMessage where
  event : String
  payload : Payload

/-- `json.Marshal` of a `models.Message`.  The struct has no json
tags, so encoding/json uses the Go field names as JSON keys. -/
def marshalMessage (m : Message) : Json :=
  .obj [("ID", .str m.id),
        ("SenderID", .str m.senderID),
        ("ReceiverID", .str m.receiverID),
        ("Text", .str m.text),
        ("Image", .str m.image),
        ("CreatedAt", .num m.createdAt),
        ("UpdatedAt", .num m.updatedAt)]

/-- `json.Marshal` of the payload slot. -/
def marshalPayload : Payload → Json
  | .userList ids => .arr (ids.map Json.str)
  | .message m => marshalMessage m

/-- `json.Marshal` of a `WebSocketMessage`: keys come from the json
tags "event" and "payload".  For the payloads actually used
(string lists and `models.Message`) `json.Marshal` cannot fail, so no
error branch is modelled. -/
def marshalWsMessage (w : WebSocketMessage) : Json :=
  .obj [("event", .str w.event), ("payload", marshalPayload w.payload)]

/-- One observable side effect of the hub code:
* `write conn msg ok` — a `WriteMessage` attempt on `conn` carrying
  the serialized `msg`; `ok = false` means the write returned an error;
* `closeConn conn` — `Conn.Close()`;
* `triggerUnregister c` — a send of `c` on the unregister channel;
* `logLine s` — a `log.Printf`/`log.Println` (text abbreviated). -/
inductive Effect where
  | write (conn : ConnID) (msg : Json) (ok : Bool)
  | closeConn (conn : ConnID)
  | triggerUnregister (c : Client)
  | logLine (s : String)

/-- Is the effect a `Conn.Close()`? -/
def Effect.isClose : Effect → Bool
  | .closeConn _ => true
  | _ => false

/-- Is the effect a send on the unregister channel? -/
def Effect.isTriggerUnregister : Effect → Bool
  | .triggerUnregister _ => true
  | _ => false

/-- Is the effect a `WriteMessage` attempt (successful or not)? -/
def Effect.isWrite : Effect → Bool
  | .write _ _ _ => true
  | _ => false

/-- One `WriteMessage` call under the failure model `fails`:
a failed write is logged, a successful one is not. -/
def writeTo (fails : ConnID → Bool) (conn : ConnID) (msg : Json) : List Effect :=
  if fails conn then
    [.write conn msg false, .logLine "write error"]
  else
    [.write conn msg true]

/-- `Hub.clients`, the Go map `map[primitive.ObjectID]*Client`,
modelled as an association list whose key order stands for one
iteration order of the map.  Keys are kept unique (theorem
`hub_directory_unique_connection_per_identity` below). -/
structure Hub where
  clients : List (UserID × Client)
deriving DecidableEq, Repr

/-- Go map read `h.clients[k]`. -/
def mapLookup (k : UserID) : List (UserID × Client) → Option Client
  | [] => none
  | (k', v) :: rest => if k' = k then some v else mapLookup k rest

/-- Go map write `h.clients[k] = v`: replaces the value in place when
the key is present, appends otherwise. -/
def mapInsert (k : UserID) (v : Client) (m : List (UserID × Client)) :
    List (UserID × Client) :=
  if (mapLookup k m).isSome then
    m.map (fun p => if p.1 = k then (k, v) else p)
  else
    m ++ [(k, v)]

/-- Go map `delete(h.clients, k)`. -/
def mapErase (k : UserID) (m : List (UserID × Client)) :
    List (UserID × Client) :=
  m.filter (fun p => decide (p.1 ≠ k))

/-- `NewHub()`: an empty directory. -/
def newHub : Hub := ⟨[]⟩

/-- The hex IDs of the currently registered users, in map order
(`onlineUserIDs` inside `sendOnlineUsers`). -/
def onlineUserIDs (h : Hub) : List UserID :=
  h.clients.map Prod.fst

/-- The serialized presence event built by `sendOnlineUsers`:
event "getOnlineUsers", payload the online user-ID list. -/
def onlineUsersJson (h : Hub) : Json :=
  marshalWsMessage { event := "getOnlineUsers", payload := .userList (onlineUserIDs h) }

/-- `Hub.sendOnlineUsers`: marshals the presence event once and
attempts a `WriteMessage` to every registered client.  A write error
is only logged — the loop continues and nothing is unregistered. -/
def sendOnlineUsers (fails : ConnID → Bool) (h : Hub) : List Effect :=
  (h.clients.map Prod.snd).flatMap (fun c => writeTo fails c.conn (onlineUsersJson h))

/-- The `case client := <-h.register` arm of `Hub.Run`: stores the
client in the map (silently overwriting any previous entry for the
same user — the old connection is not closed), then broadcasts the
updated online-user list and logs. -/
def hubRegister (fails : ConnID → Bool) (h : Hub) (client : Client) :
    Hub × List Effect :=
  let h' : Hub := ⟨mapInsert client.userID client h.clients⟩
  (h', sendOnlineUsers fails h' ++ [.logLine "connected"])

/-- The `case client := <-h.unregister` arm of `Hub.Run`: when the
user is present in the map the entry is deleted and the *argument*
client connection is closed; in both cases the online-user list is
then broadcast and a line logged. -/
def hubUnregister (fails : ConnID → Bool) (h : Hub) (client : Client) :
    Hub × List Effect :=
  if (mapLookup client.userID h.clients).isSome then
    let h' : Hub := ⟨mapErase client.userID h.clients⟩
    (h', .closeConn client.conn :: (sendOnlineUsers fails h' ++ [.logLine "disconnected"]))
  else
    (h, sendOnlineUsers fails h ++ [.logLine "disconnected"])

/-- The `case message := <-h.broadcast` arm of `Hub.Run`: looks up the
receiver; when online, wraps the message in a `WebSocketMessage` with
event "newMessage" and writes it to that one connection (a write
error is only logged); when offline, only logs.  The directory is
never modified by this arm. -/
def hubBroadcastMessage (fails : ConnID → Bool) (h : Hub) (message : Message) :
    Hub × List Effect :=
  match mapLookup message.receiverID h.clients with
  | some receiverClient =>
    let wsMessage : WebSocketMessage := { event := "newMessage", payload := .message message }
    (h, writeTo fails receiverClient.conn (marshalWsMessage wsMessage))
  | none =>
    (h, [.logLine "Receiver is offline. Message not sent via WebSocket."])

/-- `EmitNewMessage`: the global `currentHub` is modelled as an
`Option Hub`; when it is `none` (hub never initialized) the function
only logs and sends nothing. -/
def emitNewMessage (fails : ConnID → Bool) (currentHub : Option Hub)
    (message : Message) : Option Hub × List Effect :=
  match currentHub with
  | some h =>
    let r := hubBroadcastMessage fails h message
    (some r.1, r.2)
  | none =>
    (none, [.logLine "WebSocket Hub not initialized. Cannot emit message."])

/-- The deferred block of the read-loop goroutine in
`WebSocketHandler`: on exit it sends the client on the unregister
channel and closes the connection. -/
def readLoopExit (client : Client) : List Effect :=
  [.triggerUnregister client, .closeConn client.conn]

/-! ## Connection acceptor (`WebSocketHandler` and `upgrader`) -/

/-- An inbound upgrade request as the handler sees it: the Origin
header, the verified user placed in the gin context by
`AuthMiddleware` (absent when the middleware did not run or failed),
and whether the transport upgrade itself would succeed for reasons
other than the origin check. -/
structure UpgradeRequest where
  origin : String
  user : Option UserID
  transportOk : Bool
deriving DecidableEq, Repr

/-- The `CheckOrigin` closure of the package-level `upgrader`:
accepts exactly the Origin header "http://localhost:5173". -/
def checkOrigin (r : UpgradeRequest) : Bool :=
  r.origin = "http://localhost:5173"

/-- `upgrader.Upgrade` succeeds iff `CheckOrigin` accepts the request
and nothing else at the transport level fails. -/
def upgradeOk (r : UpgradeRequest) : Bool :=
  checkOrigin r && r.transportOk

/-- The three ways `WebSocketHandler` can end: 401 with no user in
context, 500 when the upgrade fails, or a client registered with the
hub. -/
inductive HandlerResult where
  | unauthorized
  | upgradeFailed
  | registered (c : Client)
deriving DecidableEq, Repr

/-- `WebSocketHandler`: requires the verified user in the context,
performs the upgrade, and only on success builds a `Client` (over a
fresh connection `newConn`) and sends it to the register channel.
The resulting hub state and handler outcome are returned. -/
def webSocketHandler (fails : ConnID → Bool) (r : UpgradeRequest)
    (newConn : ConnID) (h : Hub) : Hub × HandlerResult :=
  match r.user with
  | none => (h, .unauthorized)
  | some uid =>
    if upgradeOk r then
      let client : Client := ⟨newConn, uid⟩
      ((hubRegister fails h client).1, .registered client)
    else
      (h, .upgradeFailed)

/-! ## Message-send workflow (`ChatHandler.SendMessage`) -/

/-- One step of the send workflow, in program order: the durable
`InsertOne` of the message (with its outcome), the hand-off of a
message to `EmitNewMessage` (the Deliver entry point), and the HTTP
response status. -/
inductive SendAction where
  | store (m : Message) (ok : Bool)
  | deliver (m : Message)
  | respond (status : Nat)
deriving DecidableEq, Repr

/-- The tail of `ChatHandler.SendMessage` once `newMessage` has been
built: `InsertOne(newMessage)`; on error respond 500 and return
(no delivery); on success `EmitNewMessage(newMessage)` and respond
201 with the stored record. -/
def sendMessageActions (insertOk : Bool) (newMessage : Message) : List SendAction :=
  if insertOk then
    [.store newMessage true, .deliver newMessage, .respond 201]
  else
    [.store newMessage false, .respond 500]

/-! ## Operation sequences over the hub -/

/-- A register or unregister request consumed by `Hub.Run`. -/
inductive HubOp where
  | register (c : Client)
  | unregister (c : Client)
deriving DecidableEq, Repr

/-- State reached after `Hub.Run` consumes one request. -/
def applyOp (fails : ConnID → Bool) (h : Hub) : HubOp → Hub
  | .register c => (hubRegister fails h c).1
  | .unregister c => (hubUnregister fails h c).1

/-- State reached after `Hub.Run` consumes a sequence of requests. -/
def applyOps (fails : ConnID → Bool) (h : Hub) : List HubOp → Hub
  | [] => h
  | op :: rest => applyOps fails (applyOp fails h op) rest

/-- The directory holds at most one connection per identity: its keys
are pairwise distinct. -/
def keysNodup (h : Hub) : Prop :=
  (h.clients.map Prod.fst).Nodup

/-! ## Helper lemmas -/

theorem mapLookup_eq_none_iff (k : UserID) (m : List (UserID × Client)) :
    mapLookup k m = none ↔ k ∉ m.map Prod.fst := by
  induction m with
  | nil => simp [mapLookup]
  | cons p rest ih =>
    obtain ⟨k', v⟩ := p
    by_cases hk : k' = k
    · subst hk
      simp [mapLookup]
    · simp [mapLookup, hk, ih, Ne.symm hk]

theorem keys_mapInsert_of_isSome {k : UserID} (v : Client)
    {m : List (UserID × Client)} (hs : (mapLookup k m).isSome) :
    (mapInsert k v m).map Prod.fst = m.map Prod.fst := by
  unfold mapInsert
  rw [if_pos hs, List.map_map]
  apply List.map_congr_left
  intro p _
  by_cases hp : p.1 = k <;> simp [hp]

theorem keysNodup_mapInsert (k : UserID) (v : Client)
    (m : List (UserID × Client)) (hm : (m.map Prod.fst).Nodup) :
    ((mapInsert k v m).map Prod.fst).Nodup := by
  by_cases hs : (mapLookup k m).isSome
  · rw [keys_mapInsert_of_isSome v hs]
    exact hm
  · have hnone : mapLookup k m = none := Option.not_isSome_iff_eq_none.mp hs
    have hk : k ∉ m.map Prod.fst := (mapLookup_eq_none_iff k m).mp hnone
    unfold mapInsert
    rw [if_neg hs]
    simp [List.nodup_append, hm, hk]

theorem keysNodup_mapErase (k : UserID) (m : List (UserID × Client))
    (hm : (m.map Prod.fst).Nodup) :
    ((mapErase k m).map Prod.fst).Nodup :=
  hm.sublist ((List.filter_sublist m).map Prod.fst)

theorem mem_writeTo_shape {e : Effect} {fails : ConnID → Bool} {conn : ConnID}
    {msg : Json} (he : e ∈ writeTo fails conn msg) :
    e.isClose = false ∧ e.isTriggerUnregister = false := by
  unfold writeTo at he
  split at he <;> simp at he
  · rcases he with h | h <;> subst h <;> exact ⟨rfl, rfl⟩
  · subst he
    exact ⟨rfl, rfl⟩

theorem sendOnlineUsers_no_close (fails : ConnID → Bool) (h : Hub) :
    (sendOnlineUsers fails h).filter Effect.isClose = [] := by
  rw [List.filter_eq_nil_iff]
  intro e he
  rw [sendOnlineUsers, List.mem_flatMap] at he
  obtain ⟨c, _, hw⟩ := he
  simp [(mem_writeTo_shape hw).1]

theorem sendOnlineUsers_no_trigger (fails : ConnID → Bool) (h : Hub) :
    (sendOnlineUsers fails h).filter Effect.isTriggerUnregister = [] := by
  rw [List.filter_eq_nil_iff]
  intro e he
  rw [sendOnlineUsers, List.mem_flatMap] at he
  obtain ⟨c, _, hw⟩ := he
  simp [(mem_writeTo_shape hw).2]

theorem sendOnlineUsers_covers (fails : ConnID → Bool) (h : Hub) :
    ∀ p ∈ h.clients,
      Effect.write p.2.conn (onlineUsersJson h) (!fails p.2.conn) ∈
        sendOnlineUsers fails h := by
  intro p hp
  rw [sendOnlineUsers, List.mem_flatMap]
  refine ⟨p.2, List.mem_map_of_mem Prod.snd hp, ?_⟩
  unfold writeTo
  by_cases hf : fails p.2.conn <;> simp [hf]

/-! ## Claim theorems -/

/-- C7: for every sequence of Register and Unregister operations
(starting from `NewHub()`), the presence directory holds at most one
Connection per Identity at every point of the sequence — every
reachable state has pairwise-distinct keys, and since this is proved
for all sequences it holds for every prefix, i.e. at every point. -/
theorem hub_directory_unique_connection_per_identity
    (fails : ConnID → Bool) (ops : List HubOp) :
    keysNodup (applyOps fails newHub ops) := by
  have step : ∀ (h : Hub) (op : HubOp), keysNodup h → keysNodup (applyOp fails h op) := by
    intro h op hh
    cases op with
    | register c => exact keysNodup_mapInsert c.userID c h.clients hh
    | unregister c =>
      simp only [applyOp, hubUnregister]
      split
      · exact keysNodup_mapErase c.userID h.clients hh
      · exact hh
  have gen : ∀ (l : List HubOp) (h : Hub), keysNodup h → keysNodup (applyOps fails h l) := by
    intro l
    induction l with
    | nil => intro h hh; exact hh
    | cons op rest ih => intro h hh; exact ih _ (step h op hh)
  exact gen ops newHub (by simp [keysNodup, newHub])

/-- C1 (code evaluated at the failing input): registering a second
connection (conn 2) for an identity that already has one (conn 1)
silently replaces the directory entry and emits no `Conn.Close()` at
all — the old channel is left open, contrary to the claim that it is
closed before or at replacement. -/
theorem register_existing_identity_replaces_without_close :
    (hubRegister (fun _ => false) ⟨[("u", ⟨1, "u"⟩)]⟩ ⟨2, "u"⟩).1 = ⟨[("u", ⟨2, "u"⟩)]⟩ ∧
    ((hubRegister (fun _ => false) ⟨[("u", ⟨1, "u"⟩)]⟩ ⟨2, "u"⟩).2).filter Effect.isClose = [] := by
  exact ⟨rfl, rfl⟩

/-- C9: calling `EmitNewMessage` before the hub is initialized
(global hub `none`) is safe: the model is total (no panic), the hub
reference stays `none`, the only effect is the log line, and in
particular no write is attempted anywhere. -/
theorem emit_new_message_uninitialized_hub (fails : ConnID → Bool) (m : Message) :
    emitNewMessage fails none m =
      (none, [Effect.logLine "WebSocket Hub not initialized. Cannot emit message."]) ∧
    ((emitNewMessage fails none m).2).filter Effect.isWrite = [] :=
  ⟨rfl, rfl⟩

/-- C2 (counterexample): with clients "a" (conn 1) and "b" (conn 2)
registered and conn 1 failing its writes, delivering a message to "a"
records a failed write, yet no unregister is triggered and the
directory still contains "a" — refuting the claim that a write
failure triggers the connection's Unregister. -/
theorem broadcast_write_failure_counterexample :
    (hubBroadcastMessage (fun c => c == 1) ⟨[("a", ⟨1, "a"⟩), ("b", ⟨2, "b"⟩)]⟩
        ⟨"m1", "b", "a", "hi", "", 0, 0⟩).1 = ⟨[("a", ⟨1, "a"⟩), ("b", ⟨2, "b"⟩)]⟩ ∧
    (hubBroadcastMessage (fun c => c == 1) ⟨[("a", ⟨1, "a"⟩), ("b", ⟨2, "b"⟩)]⟩
        ⟨"m1", "b", "a", "hi", "", 0, 0⟩).2 =
      [Effect.write 1 (marshalWsMessage ⟨"newMessage",
          Payload.message ⟨"m1", "b", "a", "hi", "", 0, 0⟩⟩) false,
       Effect.logLine "write error"] ∧
    ((hubBroadcastMessage (fun c => c == 1) ⟨[("a", ⟨1, "a"⟩), ("b", ⟨2, "b"⟩)]⟩
        ⟨"m1", "b", "a", "hi", "", 0, 0⟩).2).filter Effect.isTriggerUnregister = [] :=
  ⟨rfl, rfl, rfl⟩

/-- C2 (amended): a failed write during message delivery or presence
broadcast is only logged: the hub state is unchanged, no unregister is
triggered and no channel closed, and every registered connection still
gets its own write attempt of the presence list, so one connection's
failure does not abort delivery to the rest. -/
theorem write_failure_logged_and_delivery_continues
    (fails : ConnID → Bool) (h : Hub) (m : Message) :
    (hubBroadcastMessage fails h m).1 = h ∧
    ((hubBroadcastMessage fails h m).2).filter Effect.isTriggerUnregister = [] ∧
    (sendOnlineUsers fails h).filter Effect.isTriggerUnregister = [] ∧
    (sendOnlineUsers fails h).filter Effect.isClose = [] ∧
    ∀ p ∈ h.clients,
      Effect.write p.2.conn (onlineUsersJson h) (!fails p.2.conn) ∈
        sendOnlineUsers fails h := by
  refine ⟨?_, ?_, sendOnlineUsers_no_trigger fails h, sendOnlineUsers_no_close fails h,
    sendOnlineUsers_covers fails h⟩
  · cases hc : mapLookup m.receiverID h.clients <;> simp [hubBroadcastMessage, hc]
  · cases hc : mapLookup m.receiverID h.clients
    · simp [hubBroadcastMessage, hc, Effect.isTriggerUnregister]
    · simp only [hubBroadcastMessage, hc]
      rw [List.filter_eq_nil_iff]
      intro e he
      simp [(mem_writeTo_shape he).2]

/-- C2 (witness): in the two-client hub, client "b" (conn 2) still
receives its presence-list write even though conn 1 fails. -/
theorem write_failure_logged_and_delivery_continues_witness :
    Effect.write 2 (onlineUsersJson ⟨[("a", ⟨1, "a"⟩), ("b", ⟨2, "b"⟩)]⟩) true ∈
      sendOnlineUsers (fun c => c == 1) ⟨[("a", ⟨1, "a"⟩), ("b", ⟨2, "b"⟩)]⟩ :=
  (write_failure_logged_and_delivery_continues (fun c => c == 1)
      ⟨[("a", ⟨1, "a"⟩), ("b", ⟨2, "b"⟩)]⟩ ⟨"m1", "b", "a", "hi", "", 0, 0⟩).2.2.2.2
    ("b", ⟨2, "b"⟩) (by decide)

/-- C3 (counterexample): the concrete events put on the wire are
tagged "getOnlineUsers" and "newMessage" — not "presence-list" and
"new-message" — and the message payload keys are the Go field names
(ID, SenderID, ...), not id/senderIdentity/... . -/
theorem wire_framing_counterexample :
    (hubRegister (fun _ => false) newHub ⟨1, "a"⟩).2 =
      [Effect.write 1 (Json.obj [("event", Json.str "getOnlineUsers"),
          ("payload", Json.arr [Json.str "a"])]) true,
       Effect.logLine "connected"] ∧
    ("getOnlineUsers" : String) ≠ "presence-list" ∧
    (hubBroadcastMessage (fun _ => false) ⟨[("r", ⟨1, "r"⟩)]⟩
        ⟨"m", "s", "r", "t", "", 0, 0⟩).2 =
      [Effect.write 1 (Json.obj [("event", Json.str "newMessage"),
          ("payload", Json.obj [("ID", Json.str "m"), ("SenderID", Json.str "s"),
            ("ReceiverID", Json.str "r"), ("Text", Json.str "t"), ("Image", Json.str ""),
            ("CreatedAt", Json.num 0), ("UpdatedAt", Json.num 0)])]) true] ∧
    ("newMessage" : String) ≠ "new-message" ∧ ("ID" : String) ≠ "id" :=
  ⟨rfl, by decide, rfl, by decide, by decide⟩

/-- C3 (amended): every serialized event matches the actual framing:
presence updates are tagged "getOnlineUsers" with payload the list of
online identity hex strings, and message deliveries are tagged
"newMessage" with payload keys ID, SenderID, ReceiverID, Text, Image,
CreatedAt, UpdatedAt — the Go field names, since `models.Message` has
no json tags. -/
theorem wire_framing (h : Hub) (m : Message) :
    onlineUsersJson h =
      Json.obj [("event", Json.str "getOnlineUsers"),
        ("payload", Json.arr ((onlineUserIDs h).map Json.str))] ∧
    marshalWsMessage ⟨"newMessage", Payload.message m⟩ =
      Json.obj [("event", Json.str "newMessage"),
        ("payload", Json.obj [("ID", Json.str m.id), ("SenderID", Json.str m.senderID),
          ("ReceiverID", Json.str m.receiverID), ("Text", Json.str m.text),
          ("Image", Json.str m.image), ("CreatedAt", Json.num m.createdAt),
          ("UpdatedAt", Json.num m.updatedAt)])] :=
  ⟨rfl, rfl⟩

/-- C4 (counterexample): unregistering the absent identity "b" from a
hub holding only "a" (conn 1) removes and closes nothing, but it is
not free of observable effects: it writes a presence list to the
registered connection 1 — so a second Unregister does not leave the
same emissions as a single one. -/
theorem unregister_absent_counterexample :
    (hubUnregister (fun _ => false) ⟨[("a", ⟨1, "a"⟩)]⟩ ⟨9, "b"⟩).1 = ⟨[("a", ⟨1, "a"⟩)]⟩ ∧
    (hubUnregister (fun _ => false) ⟨[("a", ⟨1, "a"⟩)]⟩ ⟨9, "b"⟩).2 =
      [Effect.write 1 (onlineUsersJson ⟨[("a", ⟨1, "a"⟩)]⟩) true,
       Effect.logLine "disconnected"] ∧
    Effect.write 1 (onlineUsersJson ⟨[("a", ⟨1, "a"⟩)]⟩) true ∈
      (hubUnregister (fun _ => false) ⟨[("a", ⟨1, "a"⟩)]⟩ ⟨9, "b"⟩).2 :=
  ⟨rfl, rfl, List.mem_cons_self _ _⟩

/-- C4 (amended): Unregister of an absent identity removes nothing,
closes nothing and leaves the directory unchanged — so a second run
reproduces the same state — but it is not a complete no-op: it still
broadcasts the unchanged presence list to every registered connection
(plus a log line). -/
theorem unregister_absent_state_noop_but_broadcasts
    (fails : ConnID → Bool) (h : Hub) (c : Client)
    (habs : mapLookup c.userID h.clients = none) :
    hubUnregister fails h c =
      (h, sendOnlineUsers fails h ++ [Effect.logLine "disconnected"]) ∧
    ((hubUnregister fails h c).2).filter Effect.isClose = [] := by
  have hs : ¬ (mapLookup c.userID h.clients).isSome = true := by simp [habs]
  constructor
  · unfold hubUnregister
    rw [if_neg hs]
  · unfold hubUnregister
    rw [if_neg hs]
    simp [List.filter_append, sendOnlineUsers_no_close, Effect.isClose]

/-- C4 (witness): the amended statement evaluated on the one-client
hub and the absent identity "b". -/
theorem unregister_absent_state_noop_but_broadcasts_witness :
    hubUnregister (fun _ => true) ⟨[("a", ⟨1, "a"⟩)]⟩ ⟨9, "b"⟩ =
      (⟨[("a", ⟨1, "a"⟩)]⟩, sendOnlineUsers (fun _ => true) ⟨[("a", ⟨1, "a"⟩)]⟩ ++
        [Effect.logLine "disconnected"]) :=
  (unregister_absent_state_noop_but_broadcasts (fun _ => true)
    ⟨[("a", ⟨1, "a"⟩)]⟩ ⟨9, "b"⟩ rfl).1

/-- C5: when the receiver of a message is present in the directory
(and its channel accepts the write), Deliver produces exactly one
event on that receiver's channel — the message wrapped in a
"newMessage" `WebSocketMessage`, so every payload field equals the
corresponding field of the input message — and the directory is left
unchanged. -/
theorem deliver_online_one_event
    (fails : ConnID → Bool) (h : Hub) (m : Message) (c : Client)
    (hc : mapLookup m.receiverID h.clients = some c)
    (hok : fails c.conn = false) :
    hubBroadcastMessage fails h m =
      (h, [Effect.write c.conn
            (marshalWsMessage ⟨"newMessage", Payload.message m⟩) true]) := by
  simp [hubBroadcastMessage, hc, writeTo, hok]

/-- C5 (witness): delivery to the online receiver "r" on conn 1. -/
theorem deliver_online_one_event_witness :
    hubBroadcastMessage (fun _ => false) ⟨[("r", ⟨1, "r"⟩)]⟩
        ⟨"m2", "s", "r", "hello", "", 3, 4⟩ =
      (⟨[("r", ⟨1, "r"⟩)]⟩, [Effect.write 1
        (marshalWsMessage ⟨"newMessage",
          Payload.message ⟨"m2", "s", "r", "hello", "", 3, 4⟩⟩) true]) :=
  deliver_online_one_event (fun _ => false) ⟨[("r", ⟨1, "r"⟩)]⟩
    ⟨"m2", "s", "r", "hello", "", 3, 4⟩ ⟨1, "r"⟩ rfl rfl

/-- C6: when the receiver of a message is absent from the directory,
Deliver returns normally, only logs, emits no event on any connection
and leaves the directory unchanged — no phantom connection appears. -/
theorem deliver_offline_noop
    (fails : ConnID → Bool) (h : Hub) (m : Message)
    (hc : mapLookup m.receiverID h.clients = none) :
    hubBroadcastMessage fails h m =
      (h, [Effect.logLine "Receiver is offline. Message not sent via WebSocket."]) ∧
    ((hubBroadcastMessage fails h m).2).filter Effect.isWrite = [] := by
  constructor
  · simp [hubBroadcastMessage, hc]
  · simp [hubBroadcastMessage, hc, Effect.isWrite]

/-- C6 (witness): delivery to the never-registered identity "C". -/
theorem deliver_offline_noop_witness :
    hubBroadcastMessage (fun _ => false) ⟨[("a", ⟨1, "a"⟩)]⟩
        ⟨"m3", "a", "C", "hi", "", 0, 0⟩ =
      (⟨[("a", ⟨1, "a"⟩)]⟩,
       [Effect.logLine "Receiver is offline. Message not sent via WebSocket."]) :=
  (deliver_offline_noop (fun _ => false) ⟨[("a", ⟨1, "a"⟩)]⟩
    ⟨"m3", "a", "C", "hi", "", 0, 0⟩ rfl).1

/-- C8: in the send workflow, a delivery hand-off can only occur when
the durable store succeeded, it carries exactly the stored record, and
the whole trace is store-then-deliver-then-respond — so a push never
precedes or survives a failed store. -/
theorem send_message_store_then_push (insertOk : Bool) (m dm : Message)
    (hd : SendAction.deliver dm ∈ sendMessageActions insertOk m) :
    insertOk = true ∧ dm = m ∧
    sendMessageActions insertOk m =
      [SendAction.store m true, SendAction.deliver m, SendAction.respond 201] := by
  cases insertOk with
  | false => simp [sendMessageActions] at hd
  | true =>
    simp [sendMessageActions] at hd
    subst hd
    exact ⟨rfl, rfl, rfl⟩

/-- C8 (witness): the trace for a successful store of a concrete
message delivers exactly that message after storing it. -/
theorem send_message_store_then_push_witness :
    sendMessageActions true ⟨"m4", "s", "r", "yo", "", 7, 7⟩ =
      [SendAction.store ⟨"m4", "s", "r", "yo", "", 7, 7⟩ true,
       SendAction.deliver ⟨"m4", "s", "r", "yo", "", 7, 7⟩,
       SendAction.respond 201] :=
  (send_message_store_then_push true ⟨"m4", "s", "r", "yo", "", 7, 7⟩
    ⟨"m4", "s", "r", "yo", "", 7, 7⟩ (by decide)).2.2

/-- C10: a request whose Origin header is not exactly
"http://localhost:5173" never leads to a registration: whatever the
attached identity and the rest of the transport, the handler leaves
the hub unchanged and its outcome is not `registered`. -/
theorem bad_origin_never_registers
    (fails : ConnID → Bool) (r : UpgradeRequest) (newConn : ConnID) (h : Hub)
    (hor : r.origin ≠ "http://localhost:5173") :
    (webSocketHandler fails r newConn h).1 = h ∧
    ∀ c : Client, (webSocketHandler fails r newConn h).2 ≠ HandlerResult.registered c := by
  have hup : upgradeOk r = false := by
    simp [upgradeOk, checkOrigin, hor]
  cases hu : r.user with
  | none => simp [webSocketHandler, hu]
  | some uid => simp [webSocketHandler, hu, hup]

/-- C10 (witness): a request from a foreign origin with a verified
identity attached is rejected without touching the empty hub. -/
theorem bad_origin_never_registers_witness :
    (webSocketHandler (fun _ => false)
        ⟨"http://evil.example", some "u", true⟩ 5 newHub).1 = newHub ∧
    (webSocketHandler (fun _ => false)
        ⟨"http://evil.example", some "u", true⟩ 5 newHub).2 ≠
      HandlerResult.registered ⟨5, "u"⟩ := by
  obtain ⟨h1, h2⟩ := bad_origin_never_registers (fun _ => false)
    ⟨"http://evil.example", some "u", true⟩ 5 newHub (by decide)
  exact ⟨h1, h2 ⟨5, "u"⟩⟩

end ChatApp
